import Mathlib

/-!
Shallow embedding of the talent8-mcp server (src/models.py, src/config.py,
src/bedrock_client.py, src/server.py) and proofs about its specification.

Modelling conventions:
* Python `int` is `Int`, Python `float` scores are `ℚ` (exact rationals),
  Python `str` is `String`.
* A pydantic model is a Lean structure together with a `mk?` constructor
  returning `Except String _` that performs the model's field validation;
  a raised `ValidationError` is the `.error` case.
* A Python `Dict[str, Any]` whose values are only ever rendered with `str()`
  or compared for truthiness is a `List (String × String)` of key / rendered
  value pairs, in insertion order.
* The boto3 `retrieve` network call is abstracted by a `ServiceOutcome`
  oracle: the raw result list on success, or the exception the SDK raised.
* Logging to stderr has no observable effect on any return value and is
  dropped from the embedding.
-/

namespace Talent8

/-! ### models.py -/

/-- `JobOpeningQuery` (models.py): `query_text` with `min_length=1`,
`max_results` with `gt=0, le=100`, default 10. -/
structure JobOpeningQuery where
  query_text : String
  max_results : Int
  deriving Repr, DecidableEq

/-- Pydantic construction of `JobOpeningQuery`: field constraints
`min_length=1` on `query_text` and `gt=0`, `le=100` on `max_results`.
`.error` is a raised `ValidationError`. -/
def JobOpeningQuery.build (query_text : String) (max_results : Int) :
    Except String JobOpeningQuery :=
  if query_text.length < 1 then
    .error "query_text: String should have at least 1 character"
  else if ¬ (0 < max_results) then
    .error "max_results: Input should be greater than 0"
  else if ¬ (max_results ≤ 100) then
    .error "max_results: Input should be less than or equal to 100"
  else
    .ok ⟨query_text, max_results⟩

/-- `SourceMetadata` (models.py): required `type`, optional location dicts.
No field constraints beyond types, so plain construction never fails. -/
structure SourceMetadata where
  type : String
  s3_location : Option (List (String × String))
  web_location : Option (List (String × String))
  deriving Repr, DecidableEq

/-- `JobOpeningResult` (models.py): required `content`, optional `score`
constrained to `ge=0.0, le=1.0` when present, `metadata` defaulting to `{}`,
optional `source`. -/
structure JobOpeningResult where
  content : String
  score : Option ℚ
  metadata : List (String × String)
  source : Option SourceMetadata
  deriving Repr, DecidableEq

/-- Pydantic construction of `JobOpeningResult`: the `ge=0.0, le=1.0`
constraint applies to `score` only when it is not `None`. -/
def JobOpeningResult.build (content : String) (score : Option ℚ)
    (metadata : List (String × String)) (source : Option SourceMetadata) :
    Except String JobOpeningResult :=
  match score with
  | none => .ok ⟨content, none, metadata, source⟩
  | some s =>
      if 0 ≤ s ∧ s ≤ 1 then .ok ⟨content, some s, metadata, source⟩
      else .error "score: Input should be in the interval [0, 1]"

/-- `JobOpeningsResponse` (models.py): `results` defaulting to `[]`,
`total_results` with `ge=0` and the `validate_total_results` field
validator. -/
structure JobOpeningsResponse where
  results : List JobOpeningResult
  total_results : Int
  deriving Repr, DecidableEq

/-- Pydantic construction of `JobOpeningsResponse`. `none` for an argument
means the field was omitted and its default applies. Pydantic v2 semantics:
a defaulted field is not run through its validators (`validate_default` is
False), so an omitted `total_results` stays at its default `0`; a supplied
`total_results` is first checked against the `ge=0` field constraint and
only then passed to the after-mode validator `validate_total_results`,
which replaces it with `len(info.data["results"])` — `results` is declared
before `total_results`, so in every construction that succeeds it is
present (as the supplied list or the applied default `[]`) in `info.data`. -/
def JobOpeningsResponse.build (results : Option (List JobOpeningResult))
    (total_results : Option Int) : Except String JobOpeningsResponse :=
  let rs := results.getD []
  match total_results with
  | none => .ok ⟨rs, 0⟩
  | some t =>
      if t < 0 then
        .error "total_results: Input should be greater than or equal to 0"
      else
        .ok ⟨rs, (rs.length : Int)⟩

/-! ### config.py -/

/-- `Settings` (config.py): the environment-derived configuration.
`aws_access_key_id` / `aws_secret_access_key` are `Optional[str]`
defaulting to `None`. -/
structure Settings where
  aws_region : String
  bedrock_knowledge_base_id : String
  aws_access_key_id : Option String
  aws_secret_access_key : Option String
  deriving Repr, DecidableEq

/-- The dict returned by `Settings.get_boto3_config`: always a
`region_name` key; the two credential keys are present (`some`) or absent
(`none`). -/
structure Boto3Config where
  region_name : String
  aws_access_key_id : Option String
  aws_secret_access_key : Option String
  deriving Repr, DecidableEq

/-- Python truthiness of an `Optional[str]`: `None` and `""` are falsy,
every other string is truthy. -/
def strTruthy : Option String → Bool
  | none => false
  | some s => !(s == "")

/-- `Settings.get_boto3_config` (config.py): starts from
`{"region_name": region}` and adds both credential keys exactly when
`self.aws_access_key_id and self.aws_secret_access_key` is truthy. -/
def Settings.get_boto3_config (s : Settings) : Boto3Config :=
  if strTruthy s.aws_access_key_id && strTruthy s.aws_secret_access_key then
    ⟨s.aws_region, s.aws_access_key_id, s.aws_secret_access_key⟩
  else
    ⟨s.aws_region, none, none⟩

/-! ### bedrock_client.py -/

/-- `BedrockClientError` (bedrock_client.py): carries only its message. -/
structure BedrockClientError where
  message : String
  deriving Repr, DecidableEq

/-- The `content` sub-dict of a raw retrieve result: `{"text": ...}`,
`text` possibly absent. An absent `content` dict and an empty one behave
identically under `.get`, so both are the all-`none` value. -/
structure RawContent where
  text : Option String
  deriving Repr, DecidableEq

/-- The `location` sub-dict of a raw retrieve result. -/
structure RawLocation where
  type : Option String
  s3Location : Option (List (String × String))
  webLocation : Option (List (String × String))
  deriving Repr, DecidableEq

/-- One raw entry of the service's `retrievalResults` list. Every field may
be absent. An empty `location` dict `{}` is falsy in the source's
`if location_data:` guard, exactly like an absent one, so the embedding
conflates `{}` with `none` for `location`. -/
structure RawRetrieveResult where
  content : Option RawContent
  score : Option ℚ
  metadata : Option (List (String × String))
  location : Option RawLocation
  deriving Repr, DecidableEq

/-- `BedrockClient._parse_source_metadata` (bedrock_client.py):
`type` defaults to `"UNKNOWN"`, the two location sub-fields pass through. -/
def parse_source_metadata (location_data : RawLocation) : SourceMetadata :=
  { type := location_data.type.getD "UNKNOWN"
    s3_location := location_data.s3Location
    web_location := location_data.webLocation }

/-- `BedrockClient._parse_retrieve_result` (bedrock_client.py): every field
access is default-producing (`content.text` defaults to `""`, `metadata` to
`{}`, `location` to no source); the final `JobOpeningResult(...)` call
performs pydantic validation, which is this function's only failure path. -/
def parse_retrieve_result (result_data : RawRetrieveResult) :
    Except String JobOpeningResult :=
  let content_text := (result_data.content.getD ⟨none⟩).text.getD ""
  let score := result_data.score
  let metadata := result_data.metadata.getD []
  let source :=
    match result_data.location with
    | some l => some (parse_source_metadata l)
    | none => none
  JobOpeningResult.build content_text score metadata source

/-- Oracle for one call of the underlying boto3 `retrieve` request:
either the raw result list, or the exception class the SDK raised.
For `ClientError`, `code` and `message` are
`e.response["Error"]["Code"]` / `["Message"]` when those keys exist, and
`excStr` is `str(e)` (the fallback for a missing `Message`). -/
inductive ServiceOutcome where
  | success (retrievalResults : List RawRetrieveResult)
  | clientError (code : Option String) (message : Option String) (excStr : String)
  | botoCoreError (excStr : String)
  | otherError (excStr : String)
  deriving Repr, DecidableEq

/-- `BedrockClient.retrieve_job_openings` (bedrock_client.py), with the
network call abstracted by `outcome`. On success each raw entry is parsed
in order (the list comprehension stops at the first raised error, like
`mapM`) and wrapped in `JobOpeningsResponse(results=…, total_results=len(…))`;
a pydantic error raised during parsing falls into the generic
`except Exception` arm. The three `except` arms build the
`BedrockClientError` messages by the source's f-strings. -/
def retrieve_job_openings (outcome : ServiceOutcome)
    (_query_text : String) (_max_results : Int) :
    Except BedrockClientError JobOpeningsResponse :=
  match outcome with
  | .success retrieval_results =>
      match retrieval_results.mapM parse_retrieve_result with
      | .ok job_results =>
          match JobOpeningsResponse.build (some job_results)
              (some (job_results.length : Int)) with
          | .ok resp => .ok resp
          | .error e => .error ⟨"Unexpected error during retrieval: " ++ e⟩
      | .error e => .error ⟨"Unexpected error during retrieval: " ++ e⟩
  | .clientError code msg excStr =>
      .error ⟨"AWS error during retrieval: " ++ code.getD "Unknown"
        ++ " - " ++ msg.getD excStr⟩
  | .botoCoreError excStr =>
      .error ⟨"Failed to retrieve job openings: " ++ excStr⟩
  | .otherError excStr =>
      .error ⟨"Unexpected error during retrieval: " ++ excStr⟩

/-! ### server.py — response formatting -/

/-- Round a rational to the nearest integer, ties to even — the rounding
`format(x, ".1f")` applies to the scaled value. `q.num / q.den` is the
floor of `q` (`ediv` by the positive denominator); see `ratNumDivDen_floor`. -/
def roundHalfEven (q : ℚ) : ℤ :=
  let f : ℤ := q.num / (q.den : ℤ)
  let r : ℚ := q - (f : ℚ)
  if r < 1/2 then f
  else if 1/2 < r then f + 1
  else if f % 2 = 0 then f else f + 1

/-- Python's `f"{x:.1f}"` on the exact value `q`: one digit after the
decimal point, round half to even. -/
def formatOneDecimal (q : ℚ) : String :=
  let n := roundHalfEven (q * 10)
  if n < 0 then "-" ++ toString ((-n) / 10) ++ "." ++ toString ((-n) % 10)
  else toString (n / 10) ++ "." ++ toString (n % 10)

/-- The `Relevance Score` lines of one result block: one line when `score`
is present, none otherwise (server.py, `if result.score is not None`). -/
def scoreLines (score : Option ℚ) : List String :=
  match score with
  | some s => ["Relevance Score: " ++ formatOneDecimal (s * 100) ++ "%"]
  | none => []

/-- The `Metadata` lines of one result block (server.py,
`if result.metadata`: an empty dict is falsy and yields no lines). -/
def formatMetadataLines (metadata : List (String × String)) : List String :=
  match metadata with
  | [] => []
  | _ =>
      "\nMetadata:" ::
        metadata.map (fun kv => "  - " ++ kv.1 ++ ": " ++ kv.2)

/-- Python dict `.get(key, default)` on the assoc-list dict model. -/
def dictGetD (d : List (String × String)) (key deflt : String) : String :=
  match d.find? (fun kv => kv.1 == key) with
  | some kv => kv.2
  | none => deflt

/-- Python truthiness of an `Optional[Dict]`: `None` and `{}` are falsy. -/
def dictTruthy : Option (List (String × String)) → Bool
  | some (_ :: _) => true
  | _ => false

/-- The source lines of one result block (server.py, `if result.source`):
the type line always, then the s3 URI when `s3_location` is truthy, else
the web URL when `web_location` is truthy. -/
def formatSourceLines (source : Option SourceMetadata) : List String :=
  match source with
  | none => []
  | some src =>
      ("\nSource Type: " ++ src.type) ::
        (if dictTruthy src.s3_location then
          ["Location: " ++ dictGetD (src.s3_location.getD []) "uri" "N/A"]
        else if dictTruthy src.web_location then
          ["URL: " ++ dictGetD (src.web_location.getD []) "url" "N/A"]
        else [])

/-- The lines appended for result number `idx` (1-indexed) in the loop body
of `_format_job_openings_response` (server.py): section marker, optional
score line, content, optional metadata lines, optional source lines, and
the trailing empty line. -/
def formatResultBlock (idx : Nat) (result : JobOpeningResult) : List String :=
  ("\n--- Job Opening #" ++ toString idx ++ " ---") ::
    (scoreLines result.score
      ++ ["\n" ++ result.content]
      ++ formatMetadataLines result.metadata
      ++ formatSourceLines result.source
      ++ [""])

/-- `_format_job_openings_response` (server.py): the zero-result sentinel,
else the count header followed by one block per result, 1-indexed, joined
with `"\n"`. -/
def format_job_openings_response (response : JobOpeningsResponse) : String :=
  if response.total_results = 0 then
    "No job openings found matching your query."
  else
    String.intercalate "\n"
      (("Found " ++ toString response.total_results ++ " job opening(s):\n") ::
        (response.results.enum.map
          (fun p => formatResultBlock (p.1 + 1) p.2)).flatten)

/-! ### server.py — tool entry point -/

/-- What the call `client.retrieve_job_openings(...)` inside
`get_job_openings` does: returns a response, raises `BedrockClientError`,
or raises some other exception (rendered by its message). This also covers
a `BedrockClientError` raised by lazy client construction in
`get_bedrock_client()`. -/
inductive ClientBehavior where
  | succeeds (resp : JobOpeningsResponse)
  | raisesBedrock (e : BedrockClientError)
  | raisesOther (excStr : String)
  deriving Repr, DecidableEq

/-- `get_job_openings` (server.py). First component: the returned string.
Second component: whether the client's search call was reached (`true`) or
the invocation failed before it (`false`). `JobOpeningQuery(...)` raises a
`ValidationError` on invalid input, which is not a `BedrockClientError`
and therefore lands in the final `except Exception` arm; a
`BedrockClientError` from the client lands in the first arm. -/
def get_job_openings (query_text : String) (max_results : Int)
    (client : ClientBehavior) : String × Bool :=
  match JobOpeningQuery.build query_text max_results with
  | .error _ => ("An unexpected error occurred. Please try again later.", false)
  | .ok _query =>
      match client with
      | .succeeds resp => (format_job_openings_response resp, true)
      | .raisesBedrock _ =>
          ("Failed to retrieve job openings. Please try again later.", true)
      | .raisesOther _ =>
          ("An unexpected error occurred. Please try again later.", true)

/-! ### Helper lemmas -/

/-- Sanity check for `roundHalfEven`: `q.num / q.den` is the floor of `q`. -/
lemma ratNumDivDen_floor (q : ℚ) : q.num / (q.den : ℤ) = ⌊q⌋ :=
  Rat.floor_def.symm

/-- An invalid tool input (empty `query_text`, or `max_results` outside
`[1,100]`) makes `JobOpeningQuery.build` raise a `ValidationError`. -/
lemma build_query_error_of_invalid (query_text : String) (max_results : Int)
    (h : query_text = "" ∨ max_results < 1 ∨ 100 < max_results) :
    ∃ msg, JobOpeningQuery.build query_text max_results = Except.error msg := by
  unfold JobOpeningQuery.build
  by_cases hq : query_text.length < 1
  · exact ⟨_, by rw [if_pos hq]⟩
  · rw [if_neg hq]
    rcases h with h | h | h
    · subst h; simp at hq
    · exact ⟨_, by rw [if_pos (by omega)]⟩
    · rw [if_neg (by omega)]
      exact ⟨_, by rw [if_pos (by omega)]⟩

/-- Successful construction of `JobOpeningsResponse` with a supplied
non-negative `total_results`: the validator replaces the supplied value by
`len(results)`. -/
lemma build_response_ok_of_nonneg
    (results : Option (List JobOpeningResult)) (t : Int) (ht : 0 ≤ t) :
    JobOpeningsResponse.build results (some t) =
      Except.ok ⟨results.getD [], ((results.getD []).length : Int)⟩ := by
  have hlt : ¬ t < 0 := by omega
  simp [JobOpeningsResponse.build, hlt]

/-- The `JobOpeningResult` that `_parse_retrieve_result` produces when the
score constraint is satisfied: every field access default-producing, no
entry dropped. -/
def parseRetrieveResultOk (result_data : RawRetrieveResult) : JobOpeningResult where
  content := (result_data.content.getD ⟨none⟩).text.getD ""
  score := result_data.score
  metadata := result_data.metadata.getD []
  source :=
    match result_data.location with
    | some l => some (parse_source_metadata l)
    | none => none

/-- Side condition under which parsing a raw entry cannot fail: its score,
when present, lies in the service-documented interval `[0,1]`. -/
def scoreOk (r : RawRetrieveResult) : Prop :=
  match r.score with
  | some s => 0 ≤ s ∧ s ≤ 1
  | none => True

instance (r : RawRetrieveResult) : Decidable (scoreOk r) :=
  match hs : r.score with
  | some s => decidable_of_iff (0 ≤ s ∧ s ≤ 1) (by simp [scoreOk, hs])
  | none => isTrue (by simp [scoreOk, hs])

/-- Parsing succeeds and never drops an entry when the score is in range. -/
lemma parse_ok_of_scoreOk (r : RawRetrieveResult) (h : scoreOk r) :
    parse_retrieve_result r = Except.ok (parseRetrieveResultOk r) := by
  unfold parse_retrieve_result JobOpeningResult.build parseRetrieveResultOk
  cases hs : r.score with
  | none => simp [hs]
  | some s =>
      have hb : 0 ≤ s ∧ s ≤ 1 := by simpa [scoreOk, hs] using h
      simp [hs, hb]

/-- The parsing list comprehension maps every raw entry, in order, when all
scores are in range. -/
lemma mapM_parse_ok (l : List RawRetrieveResult) (h : ∀ r ∈ l, scoreOk r) :
    l.mapM parse_retrieve_result = Except.ok (l.map parseRetrieveResultOk) := by
  induction l with
  | nil => rfl
  | cons a t ih =>
      rw [List.mapM_cons, parse_ok_of_scoreOk a (h a (by simp)),
        ih (fun r hr => h r (by simp [hr]))]
      rfl

/-- The head character of an appended string is the head of its left part. -/
lemma data_append_head (s t : String) (c : Char) (h : s.data.head? = some c) :
    (s ++ t).data.head? = some c := by
  rw [String.data_append]
  cases hd : s.data with
  | nil => rw [hd] at h; cases h
  | cons a as =>
      rw [hd] at h
      simpa using h

/-- A string whose first character is not `R` is not a relevance-score
line. -/
lemma ne_relevance_of_head (l : String) (hne : l.data.head? ≠ some 'R') :
    ∀ t : String, l ≠ "Relevance Score: " ++ t := by
  intro t heq
  apply hne
  rw [heq, String.data_append]
  rfl

/-- Every metadata line starts with a newline or a space. -/
lemma mem_formatMetadataLines_head (md : List (String × String)) (l : String)
    (hl : l ∈ formatMetadataLines md) :
    l.data.head? = some '\n' ∨ l.data.head? = some ' ' := by
  cases md with
  | nil => simp [formatMetadataLines] at hl
  | cons kv rest =>
      simp only [formatMetadataLines, List.mem_cons, List.mem_map] at hl
      rcases hl with h | ⟨kv2, _, hkv⟩
      · subst h; left; rfl
      · right
        rw [← hkv]
        exact data_append_head ("  - " ++ kv2.1 ++ ": ") kv2.2 ' '
          (data_append_head ("  - " ++ kv2.1) ": " ' '
            (data_append_head "  - " kv2.1 ' ' rfl))

/-- Every source line starts with a newline, `L`, or `U`. -/
lemma mem_formatSourceLines_head (source : Option SourceMetadata) (l : String)
    (hl : l ∈ formatSourceLines source) :
    l.data.head? = some '\n' ∨ l.data.head? = some 'L' ∨
      l.data.head? = some 'U' := by
  cases source with
  | none => simp [formatSourceLines] at hl
  | some src =>
      simp only [formatSourceLines, List.mem_cons] at hl
      rcases hl with h | h
      · subst h
        exact Or.inl (data_append_head "\nSource Type: " src.type '\n' rfl)
      · split at h
        · simp only [List.mem_singleton] at h
          subst h
          exact Or.inr (Or.inl (data_append_head "Location: " _ 'L' rfl))
        · split at h
          · simp only [List.mem_singleton] at h
            subst h
            exact Or.inr (Or.inr (data_append_head "URL: " _ 'U' rfl))
          · simp at h

/-- When the score is absent, no line of a result block starts with the
character `R`, so none is a relevance-score line. -/
lemma mem_formatResultBlock_noScore_head (idx : Nat) (r : JobOpeningResult)
    (hs : r.score = none) (l : String) (hl : l ∈ formatResultBlock idx r) :
    l.data.head? ≠ some 'R' := by
  unfold formatResultBlock at hl
  rcases List.mem_cons.mp hl with h | h
  · subst h
    have hh := data_append_head ("\n--- Job Opening #" ++ toString idx) " ---"
      '\n' (data_append_head "\n--- Job Opening #" (toString idx) '\n' rfl)
    rw [hh]; decide
  · rw [hs] at h
    simp only [scoreLines, List.nil_append] at h
    rcases List.mem_append.mp h with h | h
    · rcases List.mem_append.mp h with h | h
      · rcases List.mem_append.mp h with h | h
        · have hc := List.mem_singleton.mp h
          subst hc
          have hh := data_append_head "\n" r.content '\n' rfl
          rw [hh]; decide
        · rcases mem_formatMetadataLines_head _ _ h with hh | hh <;>
            rw [hh] <;> decide
      · rcases mem_formatSourceLines_head _ _ h with hh | hh | hh <;>
          rw [hh] <;> decide
    · have hc := List.mem_singleton.mp h
      subst hc
      decide

/-! ### Claim theorems -/

/-- Claim C1, counterexample: supplying `total_results = -1` with
`results = []` is not silently corrected to the true count `0`; the `ge=0`
field constraint raises a `ValidationError` before the correcting
validator runs. -/
theorem build_response_negative_total_rejected :
    JobOpeningsResponse.build (some []) (some (-1)) =
      Except.error "total_results: Input should be greater than or equal to 0" :=
  rfl

/-- Claim C1, amended: for every supplied non-negative `total_results`
(and any supplied or omitted `results`), construction succeeds and the
supplied value is silently replaced by `len(results)`, so the constructed
object satisfies `total_results = results.length`; a negative supplied
value is instead rejected by the `ge=0` constraint. -/
theorem build_response_total_corrected_of_nonneg
    (results : Option (List JobOpeningResult)) (t : Int) (ht : 0 ≤ t) :
    JobOpeningsResponse.build results (some t) =
      Except.ok ⟨results.getD [], ((results.getD []).length : Int)⟩ :=
  build_response_ok_of_nonneg results t ht

/-- Claim C1, witness: a supplied `total_results = 7` with a one-element
`results` list is corrected to `1`. -/
theorem build_response_total_corrected_witness :
    JobOpeningsResponse.build (some [⟨"Job 1", none, [], none⟩]) (some 7) =
      Except.ok ⟨[⟨"Job 1", none, [], none⟩], 1⟩ := by
  have h := build_response_total_corrected_of_nonneg
    (some [⟨"Job 1", none, [], none⟩]) 7 (by decide)
  simpa using h

/-- Claim C2: an empty `query_text` or a `max_results` outside `[1,100]`
makes the `JobOpeningQuery` construction raise a validation failure, and
the tool entry point never reaches the client's search call (second
component `false`), whatever the client would have done. -/
theorem get_job_openings_invalid_input_no_search
    (query_text : String) (max_results : Int) (client : ClientBehavior)
    (h : query_text = "" ∨ max_results < 1 ∨ 100 < max_results) :
    (∃ msg, JobOpeningQuery.build query_text max_results = Except.error msg) ∧
      (get_job_openings query_text max_results client).2 = false := by
  obtain ⟨msg, hmsg⟩ := build_query_error_of_invalid query_text max_results h
  exact ⟨⟨msg, hmsg⟩, by simp [get_job_openings, hmsg]⟩

/-- Claim C2, witness: `max_results = 0` fails validation and the search
call is never issued. -/
theorem get_job_openings_invalid_input_witness :
    (∃ msg, JobOpeningQuery.build "software engineer" 0 = Except.error msg) ∧
      (get_job_openings "software engineer" 0
        (.succeeds ⟨[], 0⟩)).2 = false :=
  get_job_openings_invalid_input_no_search "software engineer" 0
    (.succeeds ⟨[], 0⟩) (Or.inr (Or.inl (by decide)))

/-- Claim C3: for every input and every client behaviour, `get_job_openings`
returns a string — the formatted response on success, or one of the two
fixed user-safe failure messages; no exception escapes the tool boundary. -/
theorem get_job_openings_always_returns_string
    (query_text : String) (max_results : Int) (client : ClientBehavior) :
    (∃ resp, (get_job_openings query_text max_results client).1 =
        format_job_openings_response resp) ∨
      (get_job_openings query_text max_results client).1 =
        "Failed to retrieve job openings. Please try again later." ∨
      (get_job_openings query_text max_results client).1 =
        "An unexpected error occurred. Please try again later." := by
  unfold get_job_openings
  cases JobOpeningQuery.build query_text max_results with
  | error e => simp
  | ok q =>
      cases client with
      | succeeds resp => exact Or.inl ⟨resp, rfl⟩
      | raisesBedrock e => simp
      | raisesOther s => simp

/-- Claim C6: a response with `total_results = 0` formats to exactly the
zero-result sentinel string. -/
theorem format_zero_results_sentinel (resp : JobOpeningsResponse)
    (h : resp.total_results = 0) :
    format_job_openings_response resp =
      "No job openings found matching your query." := by
  unfold format_job_openings_response
  rw [if_pos h]

/-- Claim C6, witness: the empty response formats to the sentinel. -/
theorem format_zero_results_sentinel_witness :
    format_job_openings_response ⟨[], 0⟩ =
      "No job openings found matching your query." :=
  format_zero_results_sentinel ⟨[], 0⟩ rfl

/-- Claim C8, counterexample: a `ValidationError` raised inside the tool
invocation (empty `query_text`) does not propagate as a raw failure — the
entry point returns the fixed generic message, with the search never
invoked. -/
theorem validation_error_yields_fixed_message :
    get_job_openings "" 10 (.succeeds ⟨[], 0⟩) =
      ("An unexpected error occurred. Please try again later.", false) :=
  rfl

/-- Claim C8, amended: a `ValidationError` raised inside the tool
invocation path is not caught by the `BedrockClientError` handler — it is
caught by the generic `except Exception` handler and converted to the
fixed generic message (distinct from the retrieve-failure message); it
does not propagate out of the tool entry point. -/
theorem validation_error_reaches_generic_handler
    (query_text : String) (max_results : Int) (client : ClientBehavior)
    (h : query_text = "" ∨ max_results < 1 ∨ 100 < max_results) :
    get_job_openings query_text max_results client =
        ("An unexpected error occurred. Please try again later.", false) ∧
      ("An unexpected error occurred. Please try again later." : String) ≠
        "Failed to retrieve job openings. Please try again later." := by
  obtain ⟨msg, hmsg⟩ := build_query_error_of_invalid query_text max_results h
  exact ⟨by simp [get_job_openings, hmsg], by decide⟩

/-- Claim C8, witness: instantiation at `max_results = 101`. -/
theorem validation_error_generic_handler_witness :
    get_job_openings "engineer" 101 (.raisesBedrock ⟨"boom"⟩) =
        ("An unexpected error occurred. Please try again later.", false) ∧
      ("An unexpected error occurred. Please try again later." : String) ≠
        "Failed to retrieve job openings. Please try again later." :=
  validation_error_reaches_generic_handler "engineer" 101
    (.raisesBedrock ⟨"boom"⟩) (Or.inr (Or.inr (by decide)))

/-- Claim C9: the response formatter is deterministic — equal responses
format to equal strings (purity is inherent to the embedding: the
formatter reads nothing but its argument). -/
theorem format_deterministic (r₁ r₂ : JobOpeningsResponse) (h : r₁ = r₂) :
    format_job_openings_response r₁ = format_job_openings_response r₂ :=
  congrArg format_job_openings_response h

/-- Claim C9, witness: two applications at the same concrete response. -/
theorem format_deterministic_witness :
    format_job_openings_response ⟨[⟨"Job", some (1/2), [], none⟩], 1⟩ =
      format_job_openings_response ⟨[⟨"Job", some (1/2), [], none⟩], 1⟩ :=
  format_deterministic _ _ rfl

/-- Claim C10: `get_boto3_config` always carries the region; it includes
the static credential pair exactly when both `aws_access_key_id` and
`aws_secret_access_key` are present and non-empty, and omits both
otherwise (in particular when only one of the two is provided). -/
theorem get_boto3_config_credentials_iff (s : Settings) :
    (s.get_boto3_config).region_name = s.aws_region ∧
      (∀ k sec, s.aws_access_key_id = some k → k ≠ "" →
        s.aws_secret_access_key = some sec → sec ≠ "" →
        s.get_boto3_config = ⟨s.aws_region, some k, some sec⟩) ∧
      ((s.aws_access_key_id = none ∨ s.aws_access_key_id = some "" ∨
          s.aws_secret_access_key = none ∨ s.aws_secret_access_key = some "") →
        s.get_boto3_config = ⟨s.aws_region, none, none⟩) := by
  refine ⟨?_, ?_, ?_⟩
  · unfold Settings.get_boto3_config
    split <;> rfl
  · intro k sec hk hke hs hse
    have hc : (strTruthy s.aws_access_key_id &&
        strTruthy s.aws_secret_access_key) = true := by
      rw [hk, hs]; simp [strTruthy, hke, hse]
    unfold Settings.get_boto3_config
    rw [hc, if_pos rfl, hk, hs]
  · intro h
    have hc : (strTruthy s.aws_access_key_id &&
        strTruthy s.aws_secret_access_key) = false := by
      rcases h with h | h | h | h <;> simp [h, strTruthy]
    unfold Settings.get_boto3_config
    rw [hc]
    simp

/-- Claim C10, witness: with both credentials the pair is included; with
the secret missing both are omitted. -/
theorem get_boto3_config_credentials_witness :
    Settings.get_boto3_config ⟨"us-east-1", "kb-1", some "AKIA", some "SECRET"⟩ =
        ⟨"us-east-1", some "AKIA", some "SECRET"⟩ ∧
      Settings.get_boto3_config ⟨"us-east-1", "kb-1", some "AKIA", none⟩ =
        ⟨"us-east-1", none, none⟩ :=
  ⟨(get_boto3_config_credentials_iff
      ⟨"us-east-1", "kb-1", some "AKIA", some "SECRET"⟩).2.1
        "AKIA" "SECRET" rfl (by decide) rfl (by decide),
   (get_boto3_config_credentials_iff
      ⟨"us-east-1", "kb-1", some "AKIA", none⟩).2.2
        (Or.inr (Or.inr (Or.inl rfl)))⟩

/-- Claim C4: a `ClientError` with a structured error code and message
raises a `BedrockClientError` whose message contains both; a
`BotoCoreError` or any other exception raises a `BedrockClientError`
whose message contains the underlying failure description; in every such
case the tool boundary returns exactly the fixed retrieve-failure
string. -/
theorem retrieve_error_classification :
    (∀ (code msg excStr qt : String) (mr : Int),
      ∃ e, retrieve_job_openings (.clientError (some code) (some msg) excStr)
            qt mr = Except.error e ∧
        ∃ pre mid, e.message = pre ++ code ++ mid ++ msg) ∧
    (∀ (excStr qt : String) (mr : Int),
      ∃ e, retrieve_job_openings (.botoCoreError excStr) qt mr =
            Except.error e ∧
        ∃ pre, e.message = pre ++ excStr) ∧
    (∀ (excStr qt : String) (mr : Int),
      ∃ e, retrieve_job_openings (.otherError excStr) qt mr =
            Except.error e ∧
        ∃ pre, e.message = pre ++ excStr) ∧
    (∀ (qt : String) (mr : Int) (outcome : ServiceOutcome)
        (e : BedrockClientError) (q : JobOpeningQuery),
      JobOpeningQuery.build qt mr = Except.ok q →
      retrieve_job_openings outcome qt mr = Except.error e →
      get_job_openings qt mr (.raisesBedrock e) =
        ("Failed to retrieve job openings. Please try again later.", true)) := by
  refine ⟨?_, ?_, ?_, ?_⟩
  · intro code msg excStr qt mr
    exact ⟨⟨"AWS error during retrieval: " ++ code ++ " - " ++ msg⟩, rfl,
      "AWS error during retrieval: ", " - ", rfl⟩
  · intro excStr qt mr
    exact ⟨⟨"Failed to retrieve job openings: " ++ excStr⟩, rfl,
      "Failed to retrieve job openings: ", rfl⟩
  · intro excStr qt mr
    exact ⟨⟨"Unexpected error during retrieval: " ++ excStr⟩, rfl,
      "Unexpected error during retrieval: ", rfl⟩
  · intro qt mr outcome e q hq _hr
    simp [get_job_openings, hq]

/-- Claim C4, witness: a `ValidationException` client error and a
transport failure, both surfacing through the tool boundary as the fixed
string. -/
theorem retrieve_error_classification_witness :
    (∃ e, retrieve_job_openings
          (.clientError (some "ValidationException") (some "Invalid KB") "boom")
          "engineer" 10 = Except.error e ∧
        ∃ pre mid, e.message = pre ++ "ValidationException" ++ mid ++ "Invalid KB") ∧
      get_job_openings "engineer" 10
          (.raisesBedrock ⟨"Failed to retrieve job openings: conn reset"⟩) =
        ("Failed to retrieve job openings. Please try again later.", true) :=
  ⟨retrieve_error_classification.1 "ValidationException" "Invalid KB" "boom"
      "engineer" 10,
    retrieve_error_classification.2.2.2 "engineer" 10 (.botoCoreError "conn reset")
      ⟨"Failed to retrieve job openings: conn reset"⟩ ⟨"engineer", 10⟩ rfl rfl⟩

/-- Claim C5: when every raw score is in the service-documented range,
`retrieve_job_openings` on a successful call returns a response with
exactly one parsed `JobOpeningResult` per raw entry, in order, with
`total_results` equal to the count; an entry missing `content`, `score`,
`metadata` and `location` parses, without exception, to
`content = ""`, `score = none`, `metadata = []`, `source = none`. -/
theorem retrieve_success_parses_all (raws : List RawRetrieveResult)
    (qt : String) (mr : Int) (h : ∀ r ∈ raws, scoreOk r) :
    (∃ resp, retrieve_job_openings (.success raws) qt mr = Except.ok resp ∧
        resp.results = raws.map parseRetrieveResultOk ∧
        resp.results.length = raws.length ∧
        resp.total_results = (raws.length : Int) ∧
        ∀ r ∈ raws,
          parse_retrieve_result r = Except.ok (parseRetrieveResultOk r)) ∧
      parse_retrieve_result ⟨none, none, none, none⟩ =
        Except.ok ⟨"", none, [], none⟩ := by
  constructor
  · refine ⟨⟨raws.map parseRetrieveResultOk,
        ((raws.map parseRetrieveResultOk).length : Int)⟩, ?_, rfl, by simp,
      by simp, fun r hr => parse_ok_of_scoreOk r (h r hr)⟩
    simp only [retrieve_job_openings, mapM_parse_ok raws h,
      build_response_ok_of_nonneg (some (raws.map parseRetrieveResultOk))
        ((raws.map parseRetrieveResultOk).length : Int) (Int.natCast_nonneg _),
      Option.getD_some]
  · rfl

unseal Rat.mul Rat.inv in
/-- Claim C5, witness: a fully populated entry followed by a fully empty
one; both are parsed, in order, and counted. -/
theorem retrieve_success_parses_all_witness :
    (∃ resp, retrieve_job_openings (.success
          [⟨some ⟨some "Software Engineer - Remote position"⟩, some (19/20),
              some [("job_id", "12345")], none⟩,
            ⟨none, none, none, none⟩]) "software engineer" 10 =
            Except.ok resp ∧
        resp.results =
          [⟨some ⟨some "Software Engineer - Remote position"⟩, some (19/20),
              some [("job_id", "12345")], none⟩,
            ⟨none, none, none, none⟩].map parseRetrieveResultOk ∧
        resp.results.length =
          [⟨some ⟨some "Software Engineer - Remote position"⟩, some (19/20),
              some [("job_id", "12345")], none⟩,
            (⟨none, none, none, none⟩ : RawRetrieveResult)].length ∧
        resp.total_results =
          (([⟨some ⟨some "Software Engineer - Remote position"⟩, some (19/20),
              some [("job_id", "12345")], none⟩,
            (⟨none, none, none, none⟩ : RawRetrieveResult)].length : Nat) : Int) ∧
        ∀ r ∈ [⟨some ⟨some "Software Engineer - Remote position"⟩, some (19/20),
              some [("job_id", "12345")], none⟩,
            (⟨none, none, none, none⟩ : RawRetrieveResult)],
          parse_retrieve_result r = Except.ok (parseRetrieveResultOk r)) ∧
      parse_retrieve_result ⟨none, none, none, none⟩ =
        Except.ok ⟨"", none, [], none⟩ :=
  retrieve_success_parses_all
    [⟨some ⟨some "Software Engineer - Remote position"⟩, some (19/20),
        some [("job_id", "12345")], none⟩,
      ⟨none, none, none, none⟩] "software engineer" 10 (by decide)

/-- Claim C7: when a result's score is present, its block renders the
line `Relevance Score: ` followed by score × 100 to one decimal place and
`%`; when the score is absent, no line of the block is a relevance-score
line. -/
theorem format_block_score_rendering :
    (∀ (idx : Nat) (r : JobOpeningResult) (s : ℚ), r.score = some s →
        ("Relevance Score: " ++ formatOneDecimal (s * 100) ++ "%")
          ∈ formatResultBlock idx r) ∧
      (∀ (idx : Nat) (r : JobOpeningResult), r.score = none →
        ∀ l ∈ formatResultBlock idx r, ∀ t : String,
          l ≠ "Relevance Score: " ++ t) := by
  constructor
  · intro idx r s hs
    simp [formatResultBlock, scoreLines, hs]
  · intro idx r hs l hl t
    exact ne_relevance_of_head l
      (mem_formatResultBlock_noScore_head idx r hs l hl) t

unseal Rat.mul Rat.inv Rat.add Rat.sub in
/-- Claim C7, witness: a score of 0.95 renders the substring `95.0%` in
its block line. -/
theorem format_block_score_witness :
    ("Relevance Score: " ++ formatOneDecimal ((19/20 : ℚ) * 100) ++ "%")
        ∈ formatResultBlock 1
          ⟨"Software Engineer - Remote position", some (19/20), [], none⟩ ∧
      ("Relevance Score: " ++ formatOneDecimal ((19/20 : ℚ) * 100) ++ "%") =
        "Relevance Score: 95.0%" :=
  ⟨format_block_score_rendering.1 1
      ⟨"Software Engineer - Remote position", some (19/20), [], none⟩
      (19/20) rfl,
    by decide⟩

end Talent8
